import Mathlib

/-!
Verification of the frame-simulation core of the Pong variant in
`src/components/PongGame.tsx` (function `updateGame` together with the
state initialisers `initializeCpuPaddle` and `startGame`).

The TypeScript component keeps its mutable state in refs; each animation
tick calls `updateGame`, which mutates that state in place.  Here the
state is a record `SimState` and each section of `updateGame` becomes a
pure function `SimState → SimState`; `updateGame` is their composition in
the source order.  JavaScript numbers are modelled as rationals (every
constant in the source is a decimal literal), the React state setters
(`setLeftHealth`, `setRemainingBullets`, …) mirror the corresponding
field of the simulation state and are modelled as updates of that field,
and the calls to `Math.random()` / `Date.now()` are modelled as inputs
supplied to each tick in an `Env` record.  One React subtlety is kept:
`updateGame` is memoized with `useCallback(..., [])`, so the one piece of
React state it READS, `remainingBullets`, is captured by that closure at
its mount value 8 and never refreshed — the constant
`mountRemainingBullets` below.  Sound and console calls are side-effect
free for the simulation and are dropped.
-/

set_option maxRecDepth 1000000

namespace Pong

/-- Which paddle: the human player owns the left paddle, the CPU the right. -/
inductive Side where
  | left
  | right
deriving DecidableEq

/-- Winner tag, mirroring the `'PLAYER' | 'CPU'` union in the source. -/
inductive Winner where
  | player
  | cpu
deriving DecidableEq

/-- Mirror of the `GameState` interface (PongGame.tsx lines 6–18). -/
structure GameState where
  ballX : ℚ
  ballY : ℚ
  ballVelX : ℚ
  ballVelY : ℚ
  prevBallX : ℚ
  leftPaddleY : ℚ
  rightPaddleY : ℚ
  leftHealth : ℤ
  rightHealth : ℤ
  isRunning : Bool
  currentSpeedMultiplier : ℚ

/-- Mirror of `aiStateRef` (lines 56–60). -/
structure AiState where
  targetY : ℚ
  lastBallDirection : ℚ
  frameCounter : ℕ

/-- Mirror of `animationStateRef` (lines 63–68); timers are in milliseconds. -/
structure AnimState where
  blinkingPaddle : Option Side
  blinkTimer : ℕ
  blinkCycleTimer : ℕ
  isBlinkVisible : Bool

/-- The destructible CPU-paddle state: the pixel matrix `cpuPaddlePixelsRef`
(out-of-range cells are modelled as value `0`, matching the source's
"undefined is not solid" reads), the global hit counter
`cpuPaddleHealthRef` and the erosion bookkeeping `cpuPaddleEdgesRef`. -/
structure PaddleGrid where
  pixels : ℕ → ℕ → ℚ
  health : ℕ
  topPixelsRemoved : ℕ
  bottomPixelsRemoved : ℕ

/-- Mirror of an entry of `bulletsRef` (line 95). -/
structure Bullet where
  x : ℚ
  y : ℚ
  vx : ℚ
  vy : ℚ

/-- Mirror of an entry of `itemsRef` (line 99); the only `type` is `'bullets'`
so the tag is omitted. -/
structure Item where
  x : ℚ
  y : ℚ
  spawnTime : ℚ

/-- The complete mutable state touched by one tick of `updateGame`. -/
structure SimState where
  game : GameState
  ai : AiState
  anim : AnimState
  grid : PaddleGrid
  bullets : List Bullet
  items : List Item
  lastItemSpawn : ℚ
  remainingBullets : ℕ
  gameOver : Bool
  winner : Option Winner

/-- Per-tick environment: the sampled key states and the values produced by
`Math.random()` and `Date.now()` during the tick. Each random is in `[0,1)`. -/
structure Env where
  keyW : Bool
  keyS : Bool
  aiRand : ℚ
  spawnRand : ℚ
  itemYRand : ℚ
  respawnRand : ℚ
  now : ℚ

/-- Canvas width in pixels (line 26). -/
def CANVAS_WIDTH : ℚ := 800

/-- Canvas height in pixels (line 27). -/
def CANVAS_HEIGHT : ℚ := 600

/-- Paddle width in pixels (line 28). -/
def PADDLE_WIDTH : ℚ := 10

/-- Paddle height in pixels (line 29). -/
def PADDLE_HEIGHT : ℚ := 100

/-- Ball size in pixels (line 30). -/
def BALL_SIZE : ℚ := 10

/-- Bullet size in pixels (line 31). -/
def BULLET_SIZE : ℚ := 15

/-- Base paddle speed in px/tick (line 32). -/
def BASE_PADDLE_SPEED : ℚ := 8

/-- Base ball speed in px/tick (line 33). -/
def BASE_BALL_SPEED : ℚ := 5

/-- The CPU-paddle pixel matrix is `PADDLE_WIDTH × PADDLE_HEIGHT` cells;
these are the integer loop bounds used when iterating it. -/
def gridWidth : ℕ := 10

/-- Integer row count of the CPU-paddle pixel matrix. -/
def gridHeight : ℕ := 100

/-- `initializeCpuPaddle` (lines 74–83): every in-range cell is `1.0`
(fully solid); out-of-range reads are "undefined", i.e. not solid,
modelled as `0`. -/
def initializeCpuPaddle : ℕ → ℕ → ℚ := fun x y =>
  if x < gridWidth ∧ y < gridHeight then 1 else 0

/-- The grid state installed at match start and on restart
(lines 751–754 and 871–874). -/
def gridInit : PaddleGrid :=
  { pixels := initializeCpuPaddle
    health := 5
    topPixelsRemoved := 0
    bottomPixelsRemoved := 0 }

/-- The edge-erosion applied once per confirmed bullet hit
(lines 374–407): decrement the global paddle health, zero
`pixelsFromEachEdge` further rows from the top edge and from the bottom
edge across every column (capped at the vertical midpoint), and advance
the edge bookkeeping by the same capped amount. -/
def applyHit (g : PaddleGrid) : PaddleGrid :=
  let pixelsPerHit := gridHeight / 5
  let pixelsFromEachEdge := pixelsPerHit / 2
  let topStart := g.topPixelsRemoved
  let topEnd := min (topStart + pixelsFromEachEdge) (gridHeight / 2)
  let bottomStart := max (gridHeight - g.bottomPixelsRemoved - pixelsFromEachEdge) (gridHeight / 2)
  let bottomEnd := gridHeight - g.bottomPixelsRemoved
  { pixels := fun x y =>
      if x < gridWidth ∧ ((topStart ≤ y ∧ y < topEnd) ∨ (bottomStart ≤ y ∧ y < bottomEnd))
      then 0 else g.pixels x y
    health := g.health - 1
    topPixelsRemoved := min (g.topPixelsRemoved + pixelsFromEachEdge) (gridHeight / 2)
    bottomPixelsRemoved := min (g.bottomPixelsRemoved + pixelsFromEachEdge) (gridHeight / 2) }

/-- The x coordinate of the left edge of the right paddle,
`CANVAS_WIDTH - PADDLE_WIDTH` (line 279 / 568). -/
def paddleX : ℚ := CANVAS_WIDTH - PADDLE_WIDTH

/-- The scan of a bullet's primary column for a solid pixel overlapping the
bullet's box (lines 331–358): true iff some pixel of column `col` both
overlaps the bullet box and has health `> 0`. The source breaks out of
the loop at the first such pixel; `List.any` has the same value. -/
def bulletFindsSolidOverlap (g : PaddleGrid) (rpY : ℚ) (b : Bullet) (col : ℕ) : Bool :=
  (List.range gridHeight).any fun py =>
    let pixelLeft := paddleX + col
    let pixelRight := pixelLeft + 1
    let pixelTop := rpY + py
    let pixelBottom := pixelTop + 1
    decide (b.x < pixelRight) && decide (b.x + BULLET_SIZE > pixelLeft) &&
    decide (b.y < pixelBottom) && decide (b.y + BULLET_SIZE > pixelTop) &&
    decide (0 < g.pixels col py)

/-- A bullet's interaction with the CPU paddle (lines 294–426), for a bullet
that has already been moved this tick: if the bullet box overlaps the
paddle box, the primary column (from the bullet's horizontal centre) is
valid, the paddle still has health, and the column scan finds a solid
overlapping pixel, then the hit is confirmed: the grid erodes and the
bullet is consumed (`true`); otherwise the grid is unchanged and the
bullet survives (`false`). -/
def bulletPaddleCheck (g : PaddleGrid) (rpY : ℚ) (b : Bullet) : PaddleGrid × Bool :=
  if b.x + BULLET_SIZE > paddleX ∧ b.x < paddleX + PADDLE_WIDTH ∧
     b.y + BULLET_SIZE > rpY ∧ b.y < rpY + PADDLE_HEIGHT then
    let bulletCenterX := b.x + BULLET_SIZE / 2
    let primaryColumn : ℤ := ⌊bulletCenterX - paddleX⌋
    if 0 ≤ primaryColumn ∧ primaryColumn < (gridWidth : ℤ) ∧ 0 < g.health then
      if bulletFindsSolidOverlap g rpY b primaryColumn.toNat then (applyHit g, true)
      else (g, false)
    else (g, false)
  else (g, false)

/-- One bullet's full per-tick processing (lines 281–426): move it, cull it
if it left the extended canvas margin, otherwise run the paddle check and
consume it only on a confirmed hit. Returns the updated grid and the
surviving bullet, if any. -/
def processBullet (g : PaddleGrid) (rpY : ℚ) (b : Bullet) : PaddleGrid × Option Bullet :=
  let b' : Bullet := { b with x := b.x + b.vx, y := b.y + b.vy }
  if b'.x > CANVAS_WIDTH + 20 ∨ b'.x < 0 ∨ b'.y < 0 ∨ b'.y > CANVAS_HEIGHT then (g, none)
  else
    let r := bulletPaddleCheck g rpY b'
    if r.2 then (r.1, none) else (r.1, some b')

/-- Process the bullet list. The source iterates the array from the last
index down to 0 (line 281), so the grid mutations of later-indexed bullets
are visible to earlier-indexed ones; surviving bullets keep their order. -/
def processBullets (g : PaddleGrid) (rpY : ℚ) : List Bullet → PaddleGrid × List Bullet
  | [] => (g, [])
  | b :: rest =>
    let r := processBullets g rpY rest
    let rb := processBullet r.1 rpY b
    match rb.2 with
    | none => (rb.1, r.2)
    | some b' => (rb.1, b' :: r.2)

/-- The bullet section of `updateGame` (lines 270–427). -/
def bulletsStep (s : SimState) : SimState :=
  let r := processBullets s.grid s.game.rightPaddleY s.bullets
  { s with grid := r.1, bullets := r.2 }

/-- The item-collection test against the left paddle (lines 468–471),
with `itemSize = 20`. -/
def itemCollides (lpY : ℚ) (it : Item) : Prop :=
  it.x < PADDLE_WIDTH + 20 ∧ it.x + 20 > 0 ∧
  it.y < lpY + PADDLE_HEIGHT ∧ it.y + 20 > lpY

instance (lpY : ℚ) (it : Item) : Decidable (itemCollides lpY it) := by
  unfold itemCollides; infer_instance

/-- The value of `remainingBullets` that `updateGame` actually reads:
`updateGame` is created by `useCallback` with an empty dependency list
(line 705), so the `remainingBullets` inside it is the one captured when
the component mounted — the initial `useState(8)` value — and is never
refreshed. Every read of `remainingBullets` at lines 475–477 therefore
yields 8, whatever the current ammo count is. -/
def mountRemainingBullets : ℕ := 8

/-- The collection loop (lines 463–486): iterate the item list from its last
index down to 0; each colliding item is removed and the ammo count is set
to `Math.min(remainingBullets + 2, 8)` — where `remainingBullets` is the
stale closure value `mountRemainingBullets`, not the current count, so
each collection stores `min (8 + 2) 8 = 8`, a full refill. Returns the
surviving items (in order) and the final ammo count. -/
def collectItems (lpY : ℚ) : List Item → ℕ → List Item × ℕ
  | [], ammo => ([], ammo)
  | it :: rest, ammo =>
    let r := collectItems lpY rest ammo
    if itemCollides lpY it then (r.1, min (mountRemainingBullets + 2) 8)
    else (it :: r.1, r.2)

/-- The item section of `updateGame` (lines 429–486): possibly spawn a new
item at the left edge when the randomized 12–15 s interval has elapsed,
remove items older than 10000 ms, then run the collection loop. -/
def itemsStep (e : Env) (s : SimState) : SimState :=
  let spawnInterval := 12000 + e.spawnRand * 3000
  let spawned :=
    if e.now - s.lastItemSpawn > spawnInterval then
      (s.items ++ [{ x := 0, y := 50 + e.itemYRand * (CANVAS_HEIGHT - 100), spawnTime := e.now }],
       e.now)
    else (s.items, s.lastItemSpawn)
  let alive := spawned.1.filter fun it => !decide (e.now - it.spawnTime > 10000)
  let r := collectItems s.game.leftPaddleY alive s.remainingBullets
  { s with items := r.1, lastItemSpawn := spawned.2, remainingBullets := r.2 }

/-- The human-player section (lines 488–496): `w` moves the left paddle up
and `s` moves it down, each guarded by a pre-move bounds test. -/
def playerMoveStep (e : Env) (s : SimState) : SimState :=
  let lpY := s.game.leftPaddleY
  let lpY := if e.keyW ∧ lpY > 0 then lpY - BASE_PADDLE_SPEED else lpY
  let lpY := if e.keyS ∧ lpY < CANVAS_HEIGHT - PADDLE_HEIGHT then lpY + BASE_PADDLE_SPEED else lpY
  { s with game := { s.game with leftPaddleY := lpY } }

/-- The AI section (lines 498–535): every 4th frame while the ball
approaches, re-sample the target as the ball centre plus a ±15 px error;
when the ball moves away the target is the vertical centre ready stance.
The paddle steps by `BASE_PADDLE_SPEED * 0.85` toward the target when the
distance from its centre to the target exceeds the 5 px dead zone, with a
pre-move bounds test. -/
def aiStep (e : Env) (s : SimState) : SimState :=
  let frameCounter := s.ai.frameCounter + 1
  let newTarget :=
    if s.game.ballVelX > 0 ∧ frameCounter % 4 = 0 then
      (s.game.ballY + BALL_SIZE / 2) + (e.aiRand - 1/2) * 30
    else s.ai.targetY
  let targetY :=
    if s.game.ballVelX > 0 then newTarget
    else CANVAS_HEIGHT / 2 - PADDLE_HEIGHT / 2
  let paddleCenterY := s.game.rightPaddleY + PADDLE_HEIGHT / 2
  let diff := targetY - paddleCenterY
  let rpY :=
    if |diff| > 5 then
      if diff > 0 ∧ s.game.rightPaddleY < CANVAS_HEIGHT - PADDLE_HEIGHT then
        s.game.rightPaddleY + BASE_PADDLE_SPEED * (85/100)
      else if diff < 0 ∧ s.game.rightPaddleY > 0 then
        s.game.rightPaddleY - BASE_PADDLE_SPEED * (85/100)
      else s.game.rightPaddleY
    else s.game.rightPaddleY
  { s with
    ai := { targetY := newTarget, lastBallDirection := s.game.ballVelX, frameCounter := frameCounter }
    game := { s.game with rightPaddleY := rpY } }

/-- Ball integration (lines 537–542): remember the previous x, then advance
the ball by its velocity scaled by the current speed multiplier. -/
def ballMoveStep (s : SimState) : SimState :=
  { s with game := { s.game with
      prevBallX := s.game.ballX
      ballX := s.game.ballX + s.game.ballVelX * s.game.currentSpeedMultiplier
      ballY := s.game.ballY + s.game.ballVelY * s.game.currentSpeedMultiplier } }

/-- Wall bounce (lines 544–548): at the top or bottom of the canvas the
vertical velocity is inverted (the position is not clamped). -/
def wallBounceStep (s : SimState) : SimState :=
  if s.game.ballY ≤ 0 ∨ s.game.ballY ≥ CANVAS_HEIGHT - BALL_SIZE then
    { s with game := { s.game with ballVelY := -s.game.ballVelY } }
  else s

/-- The swept left-paddle collision gate (lines 551–553). -/
def leftPaddleGate (s : SimState) : Prop :=
  s.game.prevBallX > PADDLE_WIDTH ∧ s.game.ballX ≤ PADDLE_WIDTH ∧
  s.game.ballY ≥ s.game.leftPaddleY ∧ s.game.ballY ≤ s.game.leftPaddleY + PADDLE_HEIGHT

instance (s : SimState) : Decidable (leftPaddleGate s) := by
  unfold leftPaddleGate; infer_instance

/-- Left-paddle collision (lines 550–565): on a swept crossing of the
paddle's right edge within the paddle span, invert vx, set vy from the
normalized hit offset, clamp the ball to `PADDLE_WIDTH + 1`, and multiply
the speed multiplier by 1.1. -/
def leftPaddleCollisionStep (s : SimState) : SimState :=
  if leftPaddleGate s then
    let hitPos := (s.game.ballY - s.game.leftPaddleY) / PADDLE_HEIGHT
    { s with game := { s.game with
        ballVelX := -s.game.ballVelX
        ballVelY := (hitPos - 1/2) * 8
        ballX := PADDLE_WIDTH + 1
        currentSpeedMultiplier := s.game.currentSpeedMultiplier * (11/10) } }
  else s

/-- The right-paddle bounding-box gate (lines 569–571): the ball's box
crosses the paddle's left edge this tick and overlaps the paddle span. -/
def rightPaddleGate (s : SimState) : Prop :=
  s.game.prevBallX < paddleX ∧ s.game.ballX + BALL_SIZE > paddleX ∧
  s.game.ballY + BALL_SIZE > s.game.rightPaddleY ∧
  s.game.ballY < s.game.rightPaddleY + PADDLE_HEIGHT

instance (s : SimState) : Decidable (rightPaddleGate s) := by
  unfold rightPaddleGate; infer_instance

/-- Overlap of the ball's box with the 1×1 cell `(x, y)` of the CPU paddle
(lines 594–609). -/
def ballOverlapsCell (s : SimState) (x y : ℕ) : Prop :=
  s.game.ballX < paddleX + x + 1 ∧ s.game.ballX + BALL_SIZE > paddleX + x ∧
  s.game.ballY < s.game.rightPaddleY + y + 1 ∧ s.game.ballY + BALL_SIZE > s.game.rightPaddleY + y

instance (s : SimState) (x y : ℕ) : Decidable (ballOverlapsCell s x y) := by
  unfold ballOverlapsCell; infer_instance

/-- The pixel scan of the right-paddle collision (lines 592–625): true iff
some grid cell overlapping the ball's box is solid (health `> 0`). The
source breaks out of both loops at the first such cell; `List.any` has
the same value. -/
def hitSolidPixel (s : SimState) : Bool :=
  (List.range gridWidth).any fun x =>
    (List.range gridHeight).any fun y =>
      decide (ballOverlapsCell s x y) && decide (0 < s.grid.pixels x y)

/-- Right-paddle collision (lines 567–642): inside the bounding-box gate the
response runs only if the pixel scan finds a solid overlapping cell:
invert vx, set vy from the normalized hit offset, clamp the ball to the
paddle boundary, and multiply the speed multiplier by 1.1; with no solid
overlapping cell the state is unchanged and the ball passes through. -/
def rightPaddleCollisionStep (s : SimState) : SimState :=
  if rightPaddleGate s then
    if hitSolidPixel s then
      let hitPos := (s.game.ballY - s.game.rightPaddleY) / PADDLE_HEIGHT
      { s with game := { s.game with
          ballVelX := -s.game.ballVelX
          ballVelY := (hitPos - 1/2) * 8
          ballX := paddleX - BALL_SIZE - 1
          currentSpeedMultiplier := s.game.currentSpeedMultiplier * (11/10) } }
    else s
  else s

/-- Scoring (lines 644–704): a ball past the left edge costs the left player
10 health, past the right edge costs the CPU 10 health; the speed
multiplier resets to 1.0; if the loser's health is now ≤ 0 the match ends
(game over, winner set), otherwise the loser's paddle starts the blink
pause and the ball's velocity is zeroed. -/
def scoringStep (s : SimState) : SimState :=
  if s.game.ballX < 0 then
    if s.game.leftHealth - 10 ≤ 0 then
      { s with
        game := { s.game with leftHealth := s.game.leftHealth - 10,
                              currentSpeedMultiplier := 1, isRunning := false }
        gameOver := true
        winner := some Winner.cpu }
    else
      { s with
        game := { s.game with leftHealth := s.game.leftHealth - 10, currentSpeedMultiplier := 1,
                              ballVelX := 0, ballVelY := 0 }
        anim := { blinkingPaddle := some Side.left, blinkTimer := 0, blinkCycleTimer := 0,
                  isBlinkVisible := true } }
  else if s.game.ballX > CANVAS_WIDTH then
    if s.game.rightHealth - 10 ≤ 0 then
      { s with
        game := { s.game with rightHealth := s.game.rightHealth - 10,
                              currentSpeedMultiplier := 1, isRunning := false }
        gameOver := true
        winner := some Winner.player }
    else
      { s with
        game := { s.game with rightHealth := s.game.rightHealth - 10, currentSpeedMultiplier := 1,
                              ballVelX := 0, ballVelY := 0 }
        anim := { blinkingPaddle := some Side.right, blinkTimer := 0, blinkCycleTimer := 0,
                  isBlinkVisible := true } }
  else s

/-- The blink branch of `updateGame` (lines 239–268): advance both timers by
the fixed 16 ms frame time, toggle visibility each 200 ms, and at 2000 ms
end the pause: re-centre the ball, pick `-BASE_BALL_SPEED` when the
current vx is positive and `+BASE_BALL_SPEED` otherwise, randomize vy in
`[-3, 3)`, and reset the speed multiplier. The rest of the tick is
skipped while blinking. -/
def blinkStep (e : Env) (side : Side) (s : SimState) : SimState :=
  if s.anim.blinkTimer + 16 ≥ 2000 then
    { s with
      anim := { blinkingPaddle := none, blinkTimer := 0, blinkCycleTimer := 0,
                isBlinkVisible := true }
      game := { s.game with
        ballX := CANVAS_WIDTH / 2
        ballY := CANVAS_HEIGHT / 2
        prevBallX := CANVAS_WIDTH / 2
        ballVelX := if s.game.ballVelX > 0 then -BASE_BALL_SPEED else BASE_BALL_SPEED
        ballVelY := (e.respawnRand - 1/2) * 6
        currentSpeedMultiplier := 1 } }
  else
    { s with
      anim := { blinkingPaddle := some side
                blinkTimer := s.anim.blinkTimer + 16
                blinkCycleTimer :=
                  if s.anim.blinkCycleTimer + 16 ≥ 200 then 0 else s.anim.blinkCycleTimer + 16
                isBlinkVisible :=
                  if s.anim.blinkCycleTimer + 16 ≥ 200 then !s.anim.isBlinkVisible
                  else s.anim.isBlinkVisible } }

/-- The pipeline of `updateGame` that runs before the scoring checks, in
source order: bullets, items, player paddle, AI paddle, ball integration,
wall bounce, left-paddle collision, right-paddle collision. -/
def preScore (e : Env) (s : SimState) : SimState :=
  rightPaddleCollisionStep (leftPaddleCollisionStep (wallBounceStep (ballMoveStep
    (aiStep e (playerMoveStep e (itemsStep e (bulletsStep s)))))))

/-- One call of `updateGame` (lines 233–705): while a paddle is blinking only
the blink branch runs; otherwise the full pipeline runs followed by the
scoring checks. -/
def updateGame (e : Env) (s : SimState) : SimState :=
  match s.anim.blinkingPaddle with
  | some side => blinkStep e side s
  | none => scoringStep (preScore e s)

/-- One animation frame (`gameLoop`, lines 707–713): `updateGame` runs only
while the match is running. -/
def step (e : Env) (s : SimState) : SimState :=
  if s.game.isRunning then updateGame e s else s

/-- The state installed at match start (`startGame`, lines 715–777, and the
initial ref values): ball centred moving right and down, paddles centred,
full health, fresh grid, no bullets or items, 8 rounds of ammo. -/
def simInit : SimState :=
  { game :=
      { ballX := 400, ballY := 300, ballVelX := BASE_BALL_SPEED, ballVelY := 3
        prevBallX := 400, leftPaddleY := 250, rightPaddleY := 250
        leftHealth := 100, rightHealth := 100, isRunning := true
        currentSpeedMultiplier := 1 }
    ai := { targetY := 250, lastBallDirection := 0, frameCounter := 0 }
    anim := { blinkingPaddle := none, blinkTimer := 0, blinkCycleTimer := 0, isBlinkVisible := true }
    grid := gridInit
    bullets := []
    items := []
    lastItemSpawn := 0
    remainingBullets := 8
    gameOver := false
    winner := none }

/-- Iterate `n` frames from an arbitrary state under the per-tick
environment stream `e`. -/
def stepN (e : ℕ → Env) : ℕ → SimState → SimState
  | 0, s => s
  | n + 1, s => step (e n) (stepN e n s)

/-- The state after `n` frames of a match, for the environment stream `e`. -/
def runTicks (e : ℕ → Env) (n : ℕ) : SimState :=
  stepN e n simInit

/-- Environment value with no keys held, all randoms at their simplest values
(`Math.random() = 0.5` for the AI error, `0` elsewhere) and a constant
clock, used for concrete evaluations. -/
def env0 : Env :=
  { keyW := false, keyS := false, aiRand := 1/2, spawnRand := 0, itemYRand := 0,
    respawnRand := 0, now := 0 }

/-- Environment stream of the C8 refutation run: the player holds `w`
(moving the left paddle to the top, out of the ball's return path), the AI
error sample is the neutral 0.5, and the clock is constant so no items
spawn. -/
def c8env : ℕ → Env := fun _ =>
  { keyW := true, keyS := false, aiRand := 1/2, spawnRand := 0, itemYRand := 0,
    respawnRand := 0, now := 0 }

/-- Environment stream of the C3 run: no keys held, neutral randoms. -/
def c3env : ℕ → Env := fun _ => env0

/-- A mid-rally state in which the ball is about to cross the right edge
this tick: ball at x = 797 moving right at the base speed, both paddles at
their starting position. Used to exercise the miss-and-respawn path. -/
def c3start : SimState :=
  { simInit with game := { simInit.game with
      ballX := 797, prevBallX := 797, ballY := 300, ballVelY := 0 } }

/-- A state with the AI paddle at y = 494.8 (inside the canvas bounds, on
the `250 + k·6.8` lattice the AI walks) and its target well below: the
pre-move bound check `rightPaddleY < 500` passes and the paddle steps to
501.6, past the bottom bound. -/
def c9start : SimState :=
  { simInit with
    game := { simInit.game with rightPaddleY := 2474/5 }
    ai := { targetY := 600, lastBallDirection := 5, frameCounter := 0 } }

/-- The match state after 25 frames of the `c8env` run (an evaluation chunk boundary used to refute C8). -/
def c8s25 : SimState :=
  { game :=
      { ballX := 525, ballY := 375, ballVelX := 5, ballVelY := 3
        prevBallX := 520, leftPaddleY := 50, rightPaddleY := 1624/5
        leftHealth := 100, rightHealth := 100, isRunning := true
        currentSpeedMultiplier := 1 }
    ai := { targetY := 374, lastBallDirection := 5, frameCounter := 25 }
    anim := { blinkingPaddle := none, blinkTimer := 0, blinkCycleTimer := 0,
               isBlinkVisible := true }
    grid := gridInit
    bullets := []
    items := []
    lastItemSpawn := 0
    remainingBullets := 8
    gameOver := false
    winner := none }

/-- The match state after 50 frames of the `c8env` run (an evaluation chunk boundary used to refute C8). -/
def c8s50 : SimState :=
  { game :=
      { ballX := 650, ballY := 450, ballVelX := 5, ballVelY := 3
        prevBallX := 645, leftPaddleY := (-6), rightPaddleY := 1964/5
        leftHealth := 100, rightHealth := 100, isRunning := true
        currentSpeedMultiplier := 1 }
    ai := { targetY := 446, lastBallDirection := 5, frameCounter := 50 }
    anim := { blinkingPaddle := none, blinkTimer := 0, blinkCycleTimer := 0,
               isBlinkVisible := true }
    grid := gridInit
    bullets := []
    items := []
    lastItemSpawn := 0
    remainingBullets := 8
    gameOver := false
    winner := none }

/-- The match state after 75 frames of the `c8env` run (an evaluation chunk boundary used to refute C8). -/
def c8s75 : SimState :=
  { game :=
      { ballX := 775, ballY := 525, ballVelX := 5, ballVelY := 3
        prevBallX := 770, leftPaddleY := (-6), rightPaddleY := 2338/5
        leftHealth := 100, rightHealth := 100, isRunning := true
        currentSpeedMultiplier := 1 }
    ai := { targetY := 518, lastBallDirection := 5, frameCounter := 75 }
    anim := { blinkingPaddle := none, blinkTimer := 0, blinkCycleTimer := 0,
               isBlinkVisible := true }
    grid := gridInit
    bullets := []
    items := []
    lastItemSpawn := 0
    remainingBullets := 8
    gameOver := false
    winner := none }

/-- The match state after 100 frames of the `c8env` run (an evaluation chunk boundary used to refute C8). -/
def c8s100 : SimState :=
  { game :=
      { ballX := 1305/2, ballY := 331622/625, ballVelX := (-5), ballVelY := (-2/125)
        prevBallX := 658, leftPaddleY := (-6), rightPaddleY := 1624/5
        leftHealth := 100, rightHealth := 100, isRunning := true
        currentSpeedMultiplier := 11/10 }
    ai := { targetY := 530, lastBallDirection := (-5), frameCounter := 100 }
    anim := { blinkingPaddle := none, blinkTimer := 0, blinkCycleTimer := 0,
               isBlinkVisible := true }
    grid := gridInit
    bullets := []
    items := []
    lastItemSpawn := 0
    remainingBullets := 8
    gameOver := false
    winner := none }

/-- The match state after 125 frames of the `c8env` run (an evaluation chunk boundary used to refute C8). -/
def c8s125 : SimState :=
  { game :=
      { ballX := 515, ballY := 331347/625, ballVelX := (-5), ballVelY := (-2/125)
        prevBallX := 1041/2, leftPaddleY := (-6), rightPaddleY := 1012/5
        leftHealth := 100, rightHealth := 100, isRunning := true
        currentSpeedMultiplier := 11/10 }
    ai := { targetY := 530, lastBallDirection := (-5), frameCounter := 125 }
    anim := { blinkingPaddle := none, blinkTimer := 0, blinkCycleTimer := 0,
               isBlinkVisible := true }
    grid := gridInit
    bullets := []
    items := []
    lastItemSpawn := 0
    remainingBullets := 8
    gameOver := false
    winner := none }

/-- The match state after 150 frames of the `c8env` run (an evaluation chunk boundary used to refute C8). -/
def c8s150 : SimState :=
  { game :=
      { ballX := 755/2, ballY := 331072/625, ballVelX := (-5), ballVelY := (-2/125)
        prevBallX := 383, leftPaddleY := (-6), rightPaddleY := 1012/5
        leftHealth := 100, rightHealth := 100, isRunning := true
        currentSpeedMultiplier := 11/10 }
    ai := { targetY := 530, lastBallDirection := (-5), frameCounter := 150 }
    anim := { blinkingPaddle := none, blinkTimer := 0, blinkCycleTimer := 0,
               isBlinkVisible := true }
    grid := gridInit
    bullets := []
    items := []
    lastItemSpawn := 0
    remainingBullets := 8
    gameOver := false
    winner := none }

/-- The match state after 175 frames of the `c8env` run (an evaluation chunk boundary used to refute C8). -/
def c8s175 : SimState :=
  { game :=
      { ballX := 240, ballY := 330797/625, ballVelX := (-5), ballVelY := (-2/125)
        prevBallX := 491/2, leftPaddleY := (-6), rightPaddleY := 1012/5
        leftHealth := 100, rightHealth := 100, isRunning := true
        currentSpeedMultiplier := 11/10 }
    ai := { targetY := 530, lastBallDirection := (-5), frameCounter := 175 }
    anim := { blinkingPaddle := none, blinkTimer := 0, blinkCycleTimer := 0,
               isBlinkVisible := true }
    grid := gridInit
    bullets := []
    items := []
    lastItemSpawn := 0
    remainingBullets := 8
    gameOver := false
    winner := none }

/-- The match state after 200 frames of the `c8env` run (an evaluation chunk boundary used to refute C8). -/
def c8s200 : SimState :=
  { game :=
      { ballX := 205/2, ballY := 330522/625, ballVelX := (-5), ballVelY := (-2/125)
        prevBallX := 108, leftPaddleY := (-6), rightPaddleY := 1012/5
        leftHealth := 100, rightHealth := 100, isRunning := true
        currentSpeedMultiplier := 11/10 }
    ai := { targetY := 530, lastBallDirection := (-5), frameCounter := 200 }
    anim := { blinkingPaddle := none, blinkTimer := 0, blinkCycleTimer := 0,
               isBlinkVisible := true }
    grid := gridInit
    bullets := []
    items := []
    lastItemSpawn := 0
    remainingBullets := 8
    gameOver := false
    winner := none }

/-- The match state after 219 frames of the `c8env` run (an evaluation chunk boundary used to refute C8). -/
def c8s219 : SimState :=
  { game :=
      { ballX := (-2), ballY := 330313/625, ballVelX := 0, ballVelY := 0
        prevBallX := 7/2, leftPaddleY := (-6), rightPaddleY := 1012/5
        leftHealth := 90, rightHealth := 100, isRunning := true
        currentSpeedMultiplier := 1 }
    ai := { targetY := 530, lastBallDirection := (-5), frameCounter := 219 }
    anim := { blinkingPaddle := some Side.left, blinkTimer := 0, blinkCycleTimer := 0,
               isBlinkVisible := true }
    grid := gridInit
    bullets := []
    items := []
    lastItemSpawn := 0
    remainingBullets := 8
    gameOver := false
    winner := none }

/-- The match state after 220 frames of the `c8env` run (an evaluation chunk boundary used to refute C8). -/
def c8s220 : SimState :=
  { game :=
      { ballX := (-2), ballY := 330313/625, ballVelX := 0, ballVelY := 0
        prevBallX := 7/2, leftPaddleY := (-6), rightPaddleY := 1012/5
        leftHealth := 90, rightHealth := 100, isRunning := true
        currentSpeedMultiplier := 1 }
    ai := { targetY := 530, lastBallDirection := (-5), frameCounter := 219 }
    anim := { blinkingPaddle := some Side.left, blinkTimer := 16, blinkCycleTimer := 16,
               isBlinkVisible := true }
    grid := gridInit
    bullets := []
    items := []
    lastItemSpawn := 0
    remainingBullets := 8
    gameOver := false
    winner := none }

/-- The state after 1 frames of the `c3env` run from `c3start` (an evaluation chunk boundary for C3). -/
def c3s1 : SimState :=
  { game :=
      { ballX := 802, ballY := 300, ballVelX := 0, ballVelY := 0
        prevBallX := 797, leftPaddleY := 250, rightPaddleY := 1216/5
        leftHealth := 100, rightHealth := 90, isRunning := true
        currentSpeedMultiplier := 1 }
    ai := { targetY := 250, lastBallDirection := 5, frameCounter := 1 }
    anim := { blinkingPaddle := some Side.right, blinkTimer := 0, blinkCycleTimer := 0,
               isBlinkVisible := true }
    grid := gridInit
    bullets := []
    items := []
    lastItemSpawn := 0
    remainingBullets := 8
    gameOver := false
    winner := none }

/-- The state after 26 frames of the `c3env` run from `c3start` (an evaluation chunk boundary for C3). -/
def c3s26 : SimState :=
  { game :=
      { ballX := 802, ballY := 300, ballVelX := 0, ballVelY := 0
        prevBallX := 797, leftPaddleY := 250, rightPaddleY := 1216/5
        leftHealth := 100, rightHealth := 90, isRunning := true
        currentSpeedMultiplier := 1 }
    ai := { targetY := 250, lastBallDirection := 5, frameCounter := 1 }
    anim := { blinkingPaddle := some Side.right, blinkTimer := 400, blinkCycleTimer := 192,
               isBlinkVisible := false }
    grid := gridInit
    bullets := []
    items := []
    lastItemSpawn := 0
    remainingBullets := 8
    gameOver := false
    winner := none }

/-- The state after 51 frames of the `c3env` run from `c3start` (an evaluation chunk boundary for C3). -/
def c3s51 : SimState :=
  { game :=
      { ballX := 802, ballY := 300, ballVelX := 0, ballVelY := 0
        prevBallX := 797, leftPaddleY := 250, rightPaddleY := 1216/5
        leftHealth := 100, rightHealth := 90, isRunning := true
        currentSpeedMultiplier := 1 }
    ai := { targetY := 250, lastBallDirection := 5, frameCounter := 1 }
    anim := { blinkingPaddle := some Side.right, blinkTimer := 800, blinkCycleTimer := 176,
               isBlinkVisible := false }
    grid := gridInit
    bullets := []
    items := []
    lastItemSpawn := 0
    remainingBullets := 8
    gameOver := false
    winner := none }

/-- The state after 76 frames of the `c3env` run from `c3start` (an evaluation chunk boundary for C3). -/
def c3s76 : SimState :=
  { game :=
      { ballX := 802, ballY := 300, ballVelX := 0, ballVelY := 0
        prevBallX := 797, leftPaddleY := 250, rightPaddleY := 1216/5
        leftHealth := 100, rightHealth := 90, isRunning := true
        currentSpeedMultiplier := 1 }
    ai := { targetY := 250, lastBallDirection := 5, frameCounter := 1 }
    anim := { blinkingPaddle := some Side.right, blinkTimer := 1200, blinkCycleTimer := 160,
               isBlinkVisible := false }
    grid := gridInit
    bullets := []
    items := []
    lastItemSpawn := 0
    remainingBullets := 8
    gameOver := false
    winner := none }

/-- The state after 101 frames of the `c3env` run from `c3start` (an evaluation chunk boundary for C3). -/
def c3s101 : SimState :=
  { game :=
      { ballX := 802, ballY := 300, ballVelX := 0, ballVelY := 0
        prevBallX := 797, leftPaddleY := 250, rightPaddleY := 1216/5
        leftHealth := 100, rightHealth := 90, isRunning := true
        currentSpeedMultiplier := 1 }
    ai := { targetY := 250, lastBallDirection := 5, frameCounter := 1 }
    anim := { blinkingPaddle := some Side.right, blinkTimer := 1600, blinkCycleTimer := 144,
               isBlinkVisible := false }
    grid := gridInit
    bullets := []
    items := []
    lastItemSpawn := 0
    remainingBullets := 8
    gameOver := false
    winner := none }

/-- The state after 126 frames of the `c3env` run from `c3start` (an evaluation chunk boundary for C3). -/
def c3s126 : SimState :=
  { game :=
      { ballX := 400, ballY := 300, ballVelX := 5, ballVelY := (-3)
        prevBallX := 400, leftPaddleY := 250, rightPaddleY := 1216/5
        leftHealth := 100, rightHealth := 90, isRunning := true
        currentSpeedMultiplier := 1 }
    ai := { targetY := 250, lastBallDirection := 5, frameCounter := 1 }
    anim := { blinkingPaddle := none, blinkTimer := 0, blinkCycleTimer := 0,
               isBlinkVisible := true }
    grid := gridInit
    bullets := []
    items := []
    lastItemSpawn := 0
    remainingBullets := 8
    gameOver := false
    winner := none }

/-- State used to exercise C1: the ball's box has just crossed the right
paddle's left edge, overlapping the (fully solid) grid. -/
def c1state : SimState :=
  { simInit with game := { simInit.game with
      prevBallX := 780, ballX := 785, ballY := 300 } }

/-- Value of the target-minus-centre difference computed inside `aiStep`
(the `diff` of source lines 514–527), exposed for specification. -/
def aiDiff (e : Env) (s : SimState) : ℚ :=
  (if s.game.ballVelX > 0 then
    (if s.game.ballVelX > 0 ∧ (s.ai.frameCounter + 1) % 4 = 0 then
      (s.game.ballY + BALL_SIZE / 2) + (e.aiRand - 1/2) * 30
    else s.ai.targetY)
  else CANVAS_HEIGHT / 2 - PADDLE_HEIGHT / 2) - (s.game.rightPaddleY + PADDLE_HEIGHT / 2)

/-- A scoring event of a tick: the tick runs the full pipeline (no blink
pause active) and the moved ball is past the left or right edge at the
scoring checks. -/
def scoringEvent (e : Env) (s : SimState) : Prop :=
  s.anim.blinkingPaddle = none ∧
  ((preScore e s).game.ballX < 0 ∨ (preScore e s).game.ballX > CANVAS_WIDTH)

/-- The health invariant maintained by every tick: both healths lie in
[0, 100], are multiples of 10, and are strictly positive while the match
is running. -/
def HealthInv (s : SimState) : Prop :=
  0 ≤ s.game.leftHealth ∧ s.game.leftHealth ≤ 100 ∧ s.game.leftHealth % 10 = 0 ∧
  0 ≤ s.game.rightHealth ∧ s.game.rightHealth ≤ 100 ∧ s.game.rightHealth % 10 = 0 ∧
  (s.game.isRunning = true → 0 < s.game.leftHealth ∧ 0 < s.game.rightHealth)

/-- Item used in the C7 exhibit: it sits at the left edge in front of the
paddle and spawned at time 0. -/
def c7item : Item := { x := 0, y := 260, spawnTime := 0 }

/-- State holding exactly `c7item` with only 2 rounds of ammo left: the
input on which the claimed "+2 capped at 8" (which would give 4) and the
program's full refill (8) disagree. -/
def c7state : SimState := { simInit with items := [c7item], remainingBullets := 2 }

/-- Environment of the expiry half of the C7 exhibit: the clock reads
11000 ms, past `c7item`'s 10000 ms lifetime. -/
def c7expEnv : Env := { env0 with now := 11000 }

/-- State for the expiry half of the C7 exhibit: same item and ammo, with
the spawn clock set so that no new item is due at 11000 ms. -/
def c7expState : SimState := { c7state with lastItemSpawn := 15000 }

/-- The speed-multiplier invariant maintained by every tick: the multiplier
is at least 1, and it is exactly 1 whenever a blink pause is active or the
match has ended (both arise only from a scoring reset). -/
def MultInv (s : SimState) : Prop :=
  (s.anim.blinkingPaddle ≠ none → s.game.currentSpeedMultiplier = 1) ∧
  (s.game.isRunning = false → s.game.currentSpeedMultiplier = 1) ∧
  1 ≤ s.game.currentSpeedMultiplier

/-! Basic facts about the individual steps, shared by the claim proofs. -/

theorem bulletsStep_game (s : SimState) : (bulletsStep s).game = s.game := rfl

theorem itemsStep_game (e : Env) (s : SimState) : (itemsStep e s).game = s.game := rfl

theorem playerMoveStep_fields (e : Env) (s : SimState) :
    (playerMoveStep e s).game.leftHealth = s.game.leftHealth ∧
    (playerMoveStep e s).game.rightHealth = s.game.rightHealth ∧
    (playerMoveStep e s).game.isRunning = s.game.isRunning ∧
    (playerMoveStep e s).game.currentSpeedMultiplier = s.game.currentSpeedMultiplier ∧
    (playerMoveStep e s).anim = s.anim :=
  ⟨rfl, rfl, rfl, rfl, rfl⟩

theorem aiStep_fields (e : Env) (s : SimState) :
    (aiStep e s).game.leftHealth = s.game.leftHealth ∧
    (aiStep e s).game.rightHealth = s.game.rightHealth ∧
    (aiStep e s).game.isRunning = s.game.isRunning ∧
    (aiStep e s).game.currentSpeedMultiplier = s.game.currentSpeedMultiplier ∧
    (aiStep e s).anim = s.anim :=
  ⟨rfl, rfl, rfl, rfl, rfl⟩

theorem ballMoveStep_fields (s : SimState) :
    (ballMoveStep s).game.leftHealth = s.game.leftHealth ∧
    (ballMoveStep s).game.rightHealth = s.game.rightHealth ∧
    (ballMoveStep s).game.isRunning = s.game.isRunning ∧
    (ballMoveStep s).game.currentSpeedMultiplier = s.game.currentSpeedMultiplier ∧
    (ballMoveStep s).anim = s.anim :=
  ⟨rfl, rfl, rfl, rfl, rfl⟩

theorem wallBounceStep_fields (s : SimState) :
    (wallBounceStep s).game.leftHealth = s.game.leftHealth ∧
    (wallBounceStep s).game.rightHealth = s.game.rightHealth ∧
    (wallBounceStep s).game.isRunning = s.game.isRunning ∧
    (wallBounceStep s).game.currentSpeedMultiplier = s.game.currentSpeedMultiplier ∧
    (wallBounceStep s).anim = s.anim := by
  unfold wallBounceStep
  split <;> exact ⟨rfl, rfl, rfl, rfl, rfl⟩

theorem leftPaddleCollisionStep_fields (s : SimState) :
    (leftPaddleCollisionStep s).game.leftHealth = s.game.leftHealth ∧
    (leftPaddleCollisionStep s).game.rightHealth = s.game.rightHealth ∧
    (leftPaddleCollisionStep s).game.isRunning = s.game.isRunning ∧
    (leftPaddleCollisionStep s).anim = s.anim := by
  unfold leftPaddleCollisionStep
  split <;> exact ⟨rfl, rfl, rfl, rfl⟩

theorem rightPaddleCollisionStep_fields (s : SimState) :
    (rightPaddleCollisionStep s).game.leftHealth = s.game.leftHealth ∧
    (rightPaddleCollisionStep s).game.rightHealth = s.game.rightHealth ∧
    (rightPaddleCollisionStep s).game.isRunning = s.game.isRunning ∧
    (rightPaddleCollisionStep s).anim = s.anim := by
  unfold rightPaddleCollisionStep
  split
  · split <;> exact ⟨rfl, rfl, rfl, rfl⟩
  · exact ⟨rfl, rfl, rfl, rfl⟩

theorem preScore_fields (e : Env) (s : SimState) :
    (preScore e s).game.leftHealth = s.game.leftHealth ∧
    (preScore e s).game.rightHealth = s.game.rightHealth ∧
    (preScore e s).game.isRunning = s.game.isRunning := by
  unfold preScore
  have h1 := rightPaddleCollisionStep_fields
    (leftPaddleCollisionStep (wallBounceStep (ballMoveStep
      (aiStep e (playerMoveStep e (itemsStep e (bulletsStep s)))))))
  have h2 := leftPaddleCollisionStep_fields
    (wallBounceStep (ballMoveStep (aiStep e (playerMoveStep e (itemsStep e (bulletsStep s))))))
  have h3 := wallBounceStep_fields
    (ballMoveStep (aiStep e (playerMoveStep e (itemsStep e (bulletsStep s)))))
  refine ⟨?_, ?_, ?_⟩ <;>
    simp only [h1.1, h1.2.1, h1.2.2.1, h2.1, h2.2.1, h2.2.2.1, h3.1, h3.2.1, h3.2.2.1] <;>
    rfl

/-- C6: in the concrete scenario — left paddle at y = 250, ball with
previousX = 11, newX = 9, ballY = 260 (within [250, 350]) — the
left-paddle collision response inverts vx, sets vy to the normalized hit
offset `(hitPos - 0.5) * 8` (which evaluates to -16/5 here), clamps the
ball to x = `PADDLE_WIDTH + 1 = 11`, and multiplies the speed multiplier
by 1.1. -/
theorem c6_left_paddle_scenario (vx vy mult : ℚ) :
    leftPaddleCollisionStep
      { simInit with game := { simInit.game with
          prevBallX := 11, ballX := 9, ballY := 260, ballVelX := vx, ballVelY := vy,
          leftPaddleY := 250, currentSpeedMultiplier := mult } } =
      { simInit with game := { simInit.game with
          prevBallX := 11, ballY := 260, leftPaddleY := 250
          ballVelX := -vx
          ballVelY := ((260 - 250) / PADDLE_HEIGHT - 1/2) * 8
          ballX := PADDLE_WIDTH + 1
          currentSpeedMultiplier := mult * (11/10) } } ∧
    ((260 - 250 : ℚ) / PADDLE_HEIGHT - 1/2) * 8 = -16/5 ∧ (PADDLE_WIDTH : ℚ) + 1 = 11 := by
  refine ⟨?_, by norm_num [PADDLE_HEIGHT], by norm_num [PADDLE_WIDTH]⟩
  unfold leftPaddleCollisionStep
  rw [if_pos (by constructor <;> norm_num [leftPaddleGate, PADDLE_WIDTH, PADDLE_HEIGHT])]

theorem hitSolidPixel_iff (s : SimState) :
    hitSolidPixel s = true ↔
      ∃ x, x < gridWidth ∧ ∃ y, y < gridHeight ∧
        ballOverlapsCell s x y ∧ 0 < s.grid.pixels x y := by
  unfold hitSolidPixel
  simp only [List.any_eq_true, List.mem_range, Bool.and_eq_true, decide_eq_true_eq]

/-- C1: for a tick whose ball box crosses into the right paddle's bounding
box (the source's swept gate), the ball bounces — vx inverted, vy
recomputed from the hit offset, speed multiplier multiplied by 1.1, ball
clamped to the paddle boundary — if and only if at least one grid cell
overlapping the ball's box is solid (value > 0); when every overlapping
cell is 0 the whole state is unchanged and the ball passes through. -/
theorem c1_right_bounce_iff_solid_overlap (s : SimState)
    (hGate : rightPaddleGate s) :
    ((∃ x, x < gridWidth ∧ ∃ y, y < gridHeight ∧
        ballOverlapsCell s x y ∧ 0 < s.grid.pixels x y) →
      (rightPaddleCollisionStep s).game.ballVelX = -s.game.ballVelX ∧
      (rightPaddleCollisionStep s).game.ballVelY =
        ((s.game.ballY - s.game.rightPaddleY) / PADDLE_HEIGHT - 1/2) * 8 ∧
      (rightPaddleCollisionStep s).game.ballX = paddleX - BALL_SIZE - 1 ∧
      (rightPaddleCollisionStep s).game.currentSpeedMultiplier =
        s.game.currentSpeedMultiplier * (11/10)) ∧
    ((¬ ∃ x, x < gridWidth ∧ ∃ y, y < gridHeight ∧
        ballOverlapsCell s x y ∧ 0 < s.grid.pixels x y) →
      rightPaddleCollisionStep s = s) := by
  constructor
  · intro hex
    unfold rightPaddleCollisionStep
    rw [if_pos hGate, if_pos ((hitSolidPixel_iff s).mpr hex)]
    exact ⟨rfl, rfl, rfl, rfl⟩
  · intro hnex
    unfold rightPaddleCollisionStep
    rw [if_pos hGate, if_neg (fun hhit => hnex ((hitSolidPixel_iff s).mp hhit))]

/-- Witness for C1 at `c1state`: the gate holds, cell (0, 50) overlaps the
ball and is solid, and the bounce response follows. -/
theorem c1_witness :
    rightPaddleGate c1state ∧
    ((rightPaddleCollisionStep c1state).game.ballVelX = -c1state.game.ballVelX ∧
      (rightPaddleCollisionStep c1state).game.ballVelY =
        ((c1state.game.ballY - c1state.game.rightPaddleY) / PADDLE_HEIGHT - 1/2) * 8 ∧
      (rightPaddleCollisionStep c1state).game.ballX = paddleX - BALL_SIZE - 1 ∧
      (rightPaddleCollisionStep c1state).game.currentSpeedMultiplier =
        c1state.game.currentSpeedMultiplier * (11/10)) := by
  have hball : c1state.game.ballX = 785 ∧ c1state.game.ballY = 300 ∧
      c1state.game.prevBallX = 780 ∧ c1state.game.rightPaddleY = 250 :=
    ⟨rfl, rfl, rfl, rfl⟩
  have hGate : rightPaddleGate c1state := by
    unfold rightPaddleGate
    rw [hball.1, hball.2.1, hball.2.2.1, hball.2.2.2]
    norm_num [paddleX, CANVAS_WIDTH, PADDLE_WIDTH, BALL_SIZE, PADDLE_HEIGHT]
  refine ⟨hGate, (c1_right_bounce_iff_solid_overlap c1state hGate).1 ?_⟩
  refine ⟨0, by decide, 50, by decide, ?_, ?_⟩
  · unfold ballOverlapsCell
    rw [hball.1, hball.2.1, hball.2.2.2]
    norm_num [paddleX, CANVAS_WIDTH, PADDLE_WIDTH, BALL_SIZE]
  · have hpix : c1state.grid.pixels 0 50 = 1 := by
      have : c1state.grid.pixels 0 50 = initializeCpuPaddle 0 50 := rfl
      rw [this]
      norm_num [initializeCpuPaddle, gridWidth, gridHeight]
    rw [hpix]
    norm_num

theorem applyHit_top (g : PaddleGrid) :
    (applyHit g).topPixelsRemoved =
      min (g.topPixelsRemoved + gridHeight / 5 / 2) (gridHeight / 2) := rfl

theorem applyHit_bottom (g : PaddleGrid) :
    (applyHit g).bottomPixelsRemoved =
      min (g.bottomPixelsRemoved + gridHeight / 5 / 2) (gridHeight / 2) := rfl

theorem applyHit_health (g : PaddleGrid) : (applyHit g).health = g.health - 1 := rfl

theorem applyHit_pixels (g : PaddleGrid) (x y : ℕ) :
    (applyHit g).pixels x y =
      if x < gridWidth ∧
          ((g.topPixelsRemoved ≤ y ∧
              y < min (g.topPixelsRemoved + gridHeight / 5 / 2) (gridHeight / 2)) ∨
            (max (gridHeight - g.bottomPixelsRemoved - gridHeight / 5 / 2) (gridHeight / 2) ≤ y ∧
              y < gridHeight - g.bottomPixelsRemoved))
      then 0 else g.pixels x y := rfl

theorem applyHit_iter_edges (k : ℕ) :
    (applyHit^[k] gridInit).topPixelsRemoved = min (10 * k) 50 ∧
    (applyHit^[k] gridInit).bottomPixelsRemoved = min (10 * k) 50 ∧
    (applyHit^[k] gridInit).health = 5 - k := by
  induction k with
  | zero => exact ⟨rfl, rfl, rfl⟩
  | succ k ih =>
    obtain ⟨h1, h2, h3⟩ := ih
    refine ⟨?_, ?_, ?_⟩
    · rw [Function.iterate_succ_apply', applyHit_top, h1]
      simp only [gridHeight]
      omega
    · rw [Function.iterate_succ_apply', applyHit_bottom, h2]
      simp only [gridHeight]
      omega
    · rw [Function.iterate_succ_apply', applyHit_health, h3]
      omega

/-- C2: starting from the freshly initialized grid, after exactly `k ≤ 5`
confirmed hits the erosion bookkeeping satisfies
`top = bottom = min (10 k) 50` and `hitsRemaining = 5 - k`; and once the
hit counter is 0 a bullet check never changes the grid (and never consumes
the bullet), even when the bullet geometrically overlaps the paddle. -/
theorem c2_grid_erosion_invariant (k : ℕ) (_hk : k ≤ 5)
    (b : Bullet) (rpY : ℚ) (g : PaddleGrid) (hg : g.health = 0) :
    (applyHit^[k] gridInit).topPixelsRemoved = min (10 * k) 50 ∧
    (applyHit^[k] gridInit).bottomPixelsRemoved = min (10 * k) 50 ∧
    (applyHit^[k] gridInit).health = 5 - k ∧
    bulletPaddleCheck g rpY b = (g, false) := by
  obtain ⟨h1, h2, h3⟩ := applyHit_iter_edges k
  refine ⟨h1, h2, h3, ?_⟩
  unfold bulletPaddleCheck
  simp [hg]

/-- Witness for C2 at `k = 5` with a bullet sitting inside the paddle box of
the fully eroded grid. -/
theorem c2_witness :
    (5 ≤ 5 ∧ (applyHit^[5] gridInit).health = 0) ∧
    ((applyHit^[5] gridInit).topPixelsRemoved = min (10 * 5) 50 ∧
      (applyHit^[5] gridInit).bottomPixelsRemoved = min (10 * 5) 50 ∧
      (applyHit^[5] gridInit).health = 5 - 5 ∧
      bulletPaddleCheck (applyHit^[5] gridInit) 250 { x := 792, y := 300, vx := 25, vy := 0 } =
        (applyHit^[5] gridInit, false)) := by
  have hg : (applyHit^[5] gridInit).health = 0 := (applyHit_iter_edges 5).2.2
  exact ⟨⟨by decide, hg⟩,
    c2_grid_erosion_invariant 5 (by decide) { x := 792, y := 300, vx := 25, vy := 0 } 250
      (applyHit^[5] gridInit) hg⟩

theorem applyHit_iter_cells (k : ℕ) : ∀ x x' y : ℕ,
    x < gridWidth → x' < gridWidth → y < gridHeight →
    ((applyHit^[k] gridInit).pixels x y = 0 ∨ (applyHit^[k] gridInit).pixels x y = 1) ∧
    (applyHit^[k] gridInit).pixels x y = (applyHit^[k] gridInit).pixels x' y := by
  induction k with
  | zero =>
    intro x x' y hx hx' hy
    simp [gridInit, initializeCpuPaddle, hx, hx', hy]
  | succ k ih =>
    intro x x' y hx hx' hy
    rw [Function.iterate_succ_apply', applyHit_pixels, applyHit_pixels]
    by_cases hC :
      (((applyHit^[k] gridInit).topPixelsRemoved ≤ y ∧
          y < min ((applyHit^[k] gridInit).topPixelsRemoved + gridHeight / 5 / 2)
            (gridHeight / 2)) ∨
        (max (gridHeight - (applyHit^[k] gridInit).bottomPixelsRemoved - gridHeight / 5 / 2)
            (gridHeight / 2) ≤ y ∧
          y < gridHeight - (applyHit^[k] gridInit).bottomPixelsRemoved))
    · rw [if_pos ⟨hx, hC⟩, if_pos ⟨hx', hC⟩]
      exact ⟨Or.inl rfl, rfl⟩
    · rw [if_neg (fun h => hC h.2), if_neg (fun h => hC h.2)]
      exact ih x x' y hx hx' hy

/-- C10: every cell of the destructible grid holds exactly 0 or 1 after any
number of confirmed hits (initialization writes only 1.0 and erosion
writes only 0.0), and all columns hold identical contents. -/
theorem c10_cells_binary_columns_uniform (k x x' y : ℕ)
    (hx : x < gridWidth) (hx' : x' < gridWidth) (hy : y < gridHeight) :
    ((applyHit^[k] gridInit).pixels x y = 0 ∨ (applyHit^[k] gridInit).pixels x y = 1) ∧
    (applyHit^[k] gridInit).pixels x y = (applyHit^[k] gridInit).pixels x' y :=
  applyHit_iter_cells k x x' y hx hx' hy

/-- Witness for C10 after three hits, at cells (2, 15) and (7, 15): row 15
is eroded, both columns read 0. -/
theorem c10_witness :
    ((2 < gridWidth ∧ 7 < gridWidth ∧ 15 < gridHeight) ∧
      (((applyHit^[3] gridInit).pixels 2 15 = 0 ∨ (applyHit^[3] gridInit).pixels 2 15 = 1) ∧
        (applyHit^[3] gridInit).pixels 2 15 = (applyHit^[3] gridInit).pixels 7 15)) ∧
    (applyHit^[3] gridInit).pixels 2 15 = 0 := by
  refine ⟨⟨by decide, c10_cells_binary_columns_uniform 3 2 7 15 (by decide) (by decide) (by decide)⟩, ?_⟩
  have h2 : (applyHit^[2] gridInit).pixels 2 15 = 0 := by
    rw [show (2:ℕ) = 1 + 1 from rfl, Function.iterate_succ_apply', applyHit_pixels,
      (applyHit_iter_edges 1).1, (applyHit_iter_edges 1).2.1]
    rw [if_pos (by decide)]
  rw [show (3:ℕ) = 2 + 1 from rfl, Function.iterate_succ_apply', applyHit_pixels,
    (applyHit_iter_edges 2).1, (applyHit_iter_edges 2).2.1]
  rw [if_neg (by decide)]
  exact h2

/-- C9, counterexample to the claim as stated: from the reachable paddle
position 494.8 = 250 + 36·6.8 (inside the canvas bounds) with the target
below, one AI step moves the paddle to 501.6, beyond
`CANVAS_HEIGHT - PADDLE_HEIGHT = 500`: the position is not clamped within
the canvas bounds, because the source checks the bound before moving. -/
theorem c9_counterexample :
    0 ≤ c9start.game.rightPaddleY ∧
    c9start.game.rightPaddleY ≤ CANVAS_HEIGHT - PADDLE_HEIGHT ∧
    ¬ ((aiStep env0 c9start).game.rightPaddleY ≤ CANVAS_HEIGHT - PADDLE_HEIGHT) ∧
    (aiStep env0 c9start).game.rightPaddleY = 2508/5 := by
  have hrp : (aiStep env0 c9start).game.rightPaddleY =
      if |aiDiff env0 c9start| > 5 then
        if aiDiff env0 c9start > 0 ∧ c9start.game.rightPaddleY < CANVAS_HEIGHT - PADDLE_HEIGHT then
          c9start.game.rightPaddleY + BASE_PADDLE_SPEED * (85/100)
        else if aiDiff env0 c9start < 0 ∧ c9start.game.rightPaddleY > 0 then
          c9start.game.rightPaddleY - BASE_PADDLE_SPEED * (85/100)
        else c9start.game.rightPaddleY
      else c9start.game.rightPaddleY := rfl
  have hd : aiDiff env0 c9start = 276/5 := by
    have h1 : aiDiff env0 c9start =
        (if (5:ℚ) > 0 then
          (if (5:ℚ) > 0 ∧ (0 + 1) % 4 = 0 then (300 + 10/2) + (1/2 - 1/2) * 30 else 600)
        else 600/2 - 100/2) - (2474/5 + 100/2) := rfl
    rw [h1]
    norm_num
  have hrpv : c9start.game.rightPaddleY = 2474/5 := rfl
  have habs : |(276:ℚ)/5| = 276/5 := abs_of_pos (by norm_num)
  rw [hrp, hd, hrpv, habs]
  norm_num [CANVAS_HEIGHT, PADDLE_HEIGHT, BASE_PADDLE_SPEED]

/-- C9, amended: on every tick the AI paddle does not move when the
distance to its target is within the 5 px dead zone; any move is exactly
`BASE_PADDLE_SPEED · 0.85 = 6.8` up or down (down only when the target is
more than 5 px below the paddle centre, up only when more than 5 px
above, each additionally gated by a pre-move bounds test); and from a
position inside `[0, 500]` the paddle stays within one step of those
bounds — it can overshoot either bound by strictly less than 6.8, because
the source checks the bound before the move, not after. -/
theorem c9_amended (e : Env) (s : SimState) :
    (|aiDiff e s| ≤ 5 → (aiStep e s).game.rightPaddleY = s.game.rightPaddleY) ∧
    ((aiStep e s).game.rightPaddleY = s.game.rightPaddleY ∨
      (aiStep e s).game.rightPaddleY = s.game.rightPaddleY + BASE_PADDLE_SPEED * (85/100) ∨
      (aiStep e s).game.rightPaddleY = s.game.rightPaddleY - BASE_PADDLE_SPEED * (85/100)) ∧
    ((aiStep e s).game.rightPaddleY = s.game.rightPaddleY + BASE_PADDLE_SPEED * (85/100) →
      5 < aiDiff e s ∧ s.game.rightPaddleY < CANVAS_HEIGHT - PADDLE_HEIGHT) ∧
    ((aiStep e s).game.rightPaddleY = s.game.rightPaddleY - BASE_PADDLE_SPEED * (85/100) →
      aiDiff e s < -5 ∧ 0 < s.game.rightPaddleY) ∧
    (0 ≤ s.game.rightPaddleY → s.game.rightPaddleY ≤ CANVAS_HEIGHT - PADDLE_HEIGHT →
      -(BASE_PADDLE_SPEED * (85/100)) < (aiStep e s).game.rightPaddleY ∧
      (aiStep e s).game.rightPaddleY <
        (CANVAS_HEIGHT - PADDLE_HEIGHT) + BASE_PADDLE_SPEED * (85/100)) := by
  have hrp : (aiStep e s).game.rightPaddleY =
      if |aiDiff e s| > 5 then
        if aiDiff e s > 0 ∧ s.game.rightPaddleY < CANVAS_HEIGHT - PADDLE_HEIGHT then
          s.game.rightPaddleY + BASE_PADDLE_SPEED * (85/100)
        else if aiDiff e s < 0 ∧ s.game.rightPaddleY > 0 then
          s.game.rightPaddleY - BASE_PADDLE_SPEED * (85/100)
        else s.game.rightPaddleY
      else s.game.rightPaddleY := rfl
  have hstep : (0:ℚ) < BASE_PADDLE_SPEED * (85/100) := by norm_num [BASE_PADDLE_SPEED]
  rw [hrp]
  refine ⟨?_, ?_, ?_, ?_, ?_⟩
  · intro hle
    rw [if_neg (not_lt.mpr hle)]
  · split_ifs <;> simp
  · intro heq
    split_ifs at heq with h1 h2 h3
    · exact ⟨by rwa [abs_of_pos h2.1] at h1, h2.2⟩
    · exfalso; linarith
    · exfalso; linarith
    · exfalso; linarith
  · intro heq
    split_ifs at heq with h1 h2 h3
    · exfalso; linarith
    · refine ⟨?_, h3.2⟩
      have habs : |aiDiff e s| = -(aiDiff e s) := abs_of_neg h3.1
      rw [habs] at h1
      linarith
    · exfalso; linarith
    · exfalso; linarith
  · intro hlo hhi
    split_ifs with h1 h2 h3
    · exact ⟨by linarith, by linarith [h2.2]⟩
    · exact ⟨by linarith [h3.2], by linarith⟩
    · exact ⟨by linarith, by linarith⟩
    · exact ⟨by linarith, by linarith⟩

/-- Witness for the amended C9 at the match-start state: the paddle starts
at 250 inside the bounds and stays within one step of them. -/
theorem c9_amended_witness :
    (0 ≤ simInit.game.rightPaddleY ∧
      simInit.game.rightPaddleY ≤ CANVAS_HEIGHT - PADDLE_HEIGHT) ∧
    (-(BASE_PADDLE_SPEED * (85/100)) < (aiStep env0 simInit).game.rightPaddleY ∧
      (aiStep env0 simInit).game.rightPaddleY <
        (CANVAS_HEIGHT - PADDLE_HEIGHT) + BASE_PADDLE_SPEED * (85/100)) := by
  have h1 : simInit.game.rightPaddleY = 250 := rfl
  refine ⟨⟨?_, ?_⟩, (c9_amended env0 simInit).2.2.2.2 ?_ ?_⟩ <;>
    rw [h1] <;> norm_num [CANVAS_HEIGHT, PADDLE_HEIGHT]

/-- One-item tick: with the item list holding exactly `it` and no spawn due,
a within-lifetime item whose box passes the collision test is removed and
the ammo count is set to `min (mountRemainingBullets + 2) 8` — the stale
closure's full refill — while an item older than 10000 ms is removed with
the ammo count unchanged. Expiry is decided before collection. -/
theorem itemsStep_singleton (e : Env) (s : SimState) (it : Item)
    (hItems : s.items = [it])
    (hNoSpawn : ¬ (e.now - s.lastItemSpawn > 12000 + e.spawnRand * 3000)) :
    ((¬ (e.now - it.spawnTime > 10000)) →
      itemCollides s.game.leftPaddleY it →
      (itemsStep e s).items = [] ∧
      (itemsStep e s).remainingBullets = min (mountRemainingBullets + 2) 8) ∧
    ((e.now - it.spawnTime > 10000) →
      (itemsStep e s).items = [] ∧ (itemsStep e s).remainingBullets = s.remainingBullets) := by
  constructor
  · intro hexp hcoll
    constructor <;>
      simp [itemsStep, if_neg hNoSpawn, hItems, List.filter, decide_eq_false hexp,
        collectItems, hcoll]
  · intro hexp
    constructor <;>
      simp [itemsStep, if_neg hNoSpawn, hItems, List.filter, decide_eq_true hexp,
        collectItems]

/-- C7: collection does NOT increase the ammo count by exactly 2 capped at
8. With 2 rounds left and a fresh item overlapping the paddle (state
`c7state`), the tick removes the item and sets the ammo count to 8 — the
full refill `min (mountRemainingBullets + 2) 8` written by the stale
`useCallback(..., [])` closure — whereas an increase of exactly 2 capped
at 8 would give `min (2 + 2) 8 = 4 ≠ 8`. The expiry half of the claim
does hold and is exclusive of collection: at 11000 ms the same item
(spawned at 0) is past its 10000 ms lifetime, is removed, and the ammo
count stays unchanged at 2. -/
theorem c7_item_refill_exhibit :
    ((itemsStep env0 c7state).items = [] ∧
      (itemsStep env0 c7state).remainingBullets = 8 ∧
      c7state.remainingBullets = 2 ∧
      min (c7state.remainingBullets + 2) 8 = 4 ∧
      (itemsStep env0 c7state).remainingBullets ≠ min (c7state.remainingBullets + 2) 8) ∧
    ((itemsStep c7expEnv c7expState).items = [] ∧
      (itemsStep c7expEnv c7expState).remainingBullets = c7expState.remainingBullets) := by
  have hns1 : ¬ (env0.now - c7state.lastItemSpawn > 12000 + env0.spawnRand * 3000) := by
    show ¬ ((0:ℚ) - 0 > 12000 + 0 * 3000)
    norm_num
  have hfresh : ¬ (env0.now - c7item.spawnTime > 10000) := by
    show ¬ ((0:ℚ) - 0 > 10000)
    norm_num
  have hcoll : itemCollides c7state.game.leftPaddleY c7item := by
    refine ⟨?_, ?_, ?_, ?_⟩ <;>
      · show _
        norm_num [c7item, c7state, simInit, PADDLE_WIDTH, PADDLE_HEIGHT]
  have hns2 : ¬ (c7expEnv.now - c7expState.lastItemSpawn > 12000 + c7expEnv.spawnRand * 3000) := by
    show ¬ ((11000:ℚ) - 15000 > 12000 + 0 * 3000)
    norm_num
  have hexp : c7expEnv.now - c7item.spawnTime > 10000 := by
    show (11000:ℚ) - 0 > 10000
    norm_num
  obtain ⟨h1, h2⟩ := (itemsStep_singleton env0 c7state c7item rfl hns1).1 hfresh hcoll
  obtain ⟨h3, h4⟩ := (itemsStep_singleton c7expEnv c7expState c7item rfl hns2).2 hexp
  refine ⟨⟨h1, ?_, rfl, by decide, ?_⟩, h3, h4⟩
  · rw [h2]; decide
  · rw [h2]; decide

theorem blinkStep_mult (e : Env) (side : Side) (s : SimState) :
    (blinkStep e side s).game.currentSpeedMultiplier = 1 ∨
    (blinkStep e side s).game.currentSpeedMultiplier = s.game.currentSpeedMultiplier := by
  unfold blinkStep
  split_ifs <;> first
  | exact Or.inl rfl
  | exact Or.inr rfl

theorem blinkStep_health (e : Env) (side : Side) (s : SimState) :
    (blinkStep e side s).game.leftHealth = s.game.leftHealth ∧
    (blinkStep e side s).game.rightHealth = s.game.rightHealth ∧
    (blinkStep e side s).game.isRunning = s.game.isRunning := by
  unfold blinkStep
  split_ifs <;> exact ⟨rfl, rfl, rfl⟩

theorem leftPaddleCollisionStep_mult (s : SimState) :
    (leftPaddleCollisionStep s).game.currentSpeedMultiplier = s.game.currentSpeedMultiplier ∨
    (leftPaddleCollisionStep s).game.currentSpeedMultiplier =
      s.game.currentSpeedMultiplier * (11/10) := by
  unfold leftPaddleCollisionStep
  split_ifs
  · exact Or.inr rfl
  · exact Or.inl rfl

theorem rightPaddleCollisionStep_mult (s : SimState) :
    (rightPaddleCollisionStep s).game.currentSpeedMultiplier = s.game.currentSpeedMultiplier ∨
    (rightPaddleCollisionStep s).game.currentSpeedMultiplier =
      s.game.currentSpeedMultiplier * (11/10) := by
  unfold rightPaddleCollisionStep
  split_ifs
  · exact Or.inr rfl
  · exact Or.inl rfl
  · exact Or.inl rfl

theorem preScore_mult (e : Env) (s : SimState)
    (hone : 1 ≤ s.game.currentSpeedMultiplier) :
    s.game.currentSpeedMultiplier ≤ (preScore e s).game.currentSpeedMultiplier := by
  unfold preScore
  have h6 : (wallBounceStep (ballMoveStep (aiStep e (playerMoveStep e (itemsStep e
      (bulletsStep s)))))).game.currentSpeedMultiplier = s.game.currentSpeedMultiplier := by
    rw [(wallBounceStep_fields _).2.2.2.1]
    rfl
  rcases leftPaddleCollisionStep_mult (wallBounceStep (ballMoveStep (aiStep e
      (playerMoveStep e (itemsStep e (bulletsStep s)))))) with h7 | h7 <;>
    rcases rightPaddleCollisionStep_mult (leftPaddleCollisionStep (wallBounceStep (ballMoveStep
      (aiStep e (playerMoveStep e (itemsStep e (bulletsStep s))))))) with h8 | h8 <;>
    rw [h8, h7, h6] <;> nlinarith [hone]

theorem preScore_mult_cases (e : Env) (s : SimState) :
    (preScore e s).game.currentSpeedMultiplier = s.game.currentSpeedMultiplier ∨
    (preScore e s).game.currentSpeedMultiplier =
      s.game.currentSpeedMultiplier * (11/10) ∨
    (preScore e s).game.currentSpeedMultiplier =
      s.game.currentSpeedMultiplier * (11/10) * (11/10) := by
  unfold preScore
  have h6 : (wallBounceStep (ballMoveStep (aiStep e (playerMoveStep e (itemsStep e
      (bulletsStep s)))))).game.currentSpeedMultiplier = s.game.currentSpeedMultiplier := by
    rw [(wallBounceStep_fields _).2.2.2.1]
    rfl
  rcases leftPaddleCollisionStep_mult (wallBounceStep (ballMoveStep (aiStep e
      (playerMoveStep e (itemsStep e (bulletsStep s)))))) with h7 | h7 <;>
    rcases rightPaddleCollisionStep_mult (leftPaddleCollisionStep (wallBounceStep (ballMoveStep
      (aiStep e (playerMoveStep e (itemsStep e (bulletsStep s))))))) with h8 | h8
  · exact Or.inl (by rw [h8, h7, h6])
  · exact Or.inr (Or.inl (by rw [h8, h7, h6]))
  · exact Or.inr (Or.inl (by rw [h8, h7, h6]))
  · exact Or.inr (Or.inr (by rw [h8, h7, h6]))

theorem scoringStep_mult (s : SimState) :
    ((s.game.ballX < 0 ∨ s.game.ballX > CANVAS_WIDTH) →
      (scoringStep s).game.currentSpeedMultiplier = 1) ∧
    (¬ (s.game.ballX < 0 ∨ s.game.ballX > CANVAS_WIDTH) →
      (scoringStep s).game.currentSpeedMultiplier = s.game.currentSpeedMultiplier) := by
  unfold scoringStep
  split_ifs with h1 h2 h3 h4
  · exact ⟨fun _ => rfl, fun hn => absurd (Or.inl h1) hn⟩
  · exact ⟨fun _ => rfl, fun hn => absurd (Or.inl h1) hn⟩
  · exact ⟨fun _ => rfl, fun hn => absurd (Or.inr h3) hn⟩
  · exact ⟨fun _ => rfl, fun hn => absurd (Or.inr h3) hn⟩
  · exact ⟨fun hd => absurd hd (not_or.mpr ⟨h1, h3⟩), fun _ => rfl⟩

theorem updateGame_mult (e : Env) (s : SimState)
    (hblink : s.anim.blinkingPaddle ≠ none → s.game.currentSpeedMultiplier = 1)
    (hone : 1 ≤ s.game.currentSpeedMultiplier) :
    (scoringEvent e s → (updateGame e s).game.currentSpeedMultiplier = 1) ∧
    (¬ scoringEvent e s →
      s.game.currentSpeedMultiplier ≤ (updateGame e s).game.currentSpeedMultiplier) := by
  cases hb : s.anim.blinkingPaddle with
  | some side =>
    have hm := hblink (by rw [hb]; exact fun h => Option.noConfusion h)
    have hupd : updateGame e s = blinkStep e side s := by
      unfold updateGame
      rw [hb]
    constructor
    · intro hev
      have h0 : s.anim.blinkingPaddle = none := hev.1
      rw [hb] at h0
      exact Option.noConfusion h0
    · intro _
      rw [hupd, hm]
      rcases blinkStep_mult e side s with h | h
      · rw [h]
      · rw [h, hm]
  | none =>
    have hupd : updateGame e s = scoringStep (preScore e s) := by
      unfold updateGame
      rw [hb]
    have hpre := preScore_mult e s hone
    obtain ⟨hsc1, hsc2⟩ := scoringStep_mult (preScore e s)
    constructor
    · intro hev
      rw [hupd]
      exact hsc1 hev.2
    · intro hnev
      rw [hupd]
      rw [hsc2 (fun hd => hnev ⟨hb, hd⟩)]
      exact hpre

theorem updateGame_mult_cases (e : Env) (s : SimState)
    (hblink : s.anim.blinkingPaddle ≠ none → s.game.currentSpeedMultiplier = 1)
    (hnev : ¬ scoringEvent e s) :
    (updateGame e s).game.currentSpeedMultiplier = s.game.currentSpeedMultiplier ∨
    (updateGame e s).game.currentSpeedMultiplier =
      s.game.currentSpeedMultiplier * (11/10) ∨
    (updateGame e s).game.currentSpeedMultiplier =
      s.game.currentSpeedMultiplier * (11/10) * (11/10) := by
  cases hb : s.anim.blinkingPaddle with
  | some side =>
    have hm := hblink (by rw [hb]; exact fun h => Option.noConfusion h)
    have hupd : updateGame e s = blinkStep e side s := by
      unfold updateGame
      rw [hb]
    rw [hupd]
    rcases blinkStep_mult e side s with h | h
    · exact Or.inl (by rw [h, hm])
    · exact Or.inl h
  | none =>
    have hupd : updateGame e s = scoringStep (preScore e s) := by
      unfold updateGame
      rw [hb]
    rw [hupd, (scoringStep_mult (preScore e s)).2 (fun hd => hnev ⟨hb, hd⟩)]
    exact preScore_mult_cases e s

theorem preScore_anim (e : Env) (s : SimState) : (preScore e s).anim = s.anim := by
  unfold preScore
  rw [(rightPaddleCollisionStep_fields _).2.2.2, (leftPaddleCollisionStep_fields _).2.2.2,
    (wallBounceStep_fields _).2.2.2.2, (ballMoveStep_fields _).2.2.2.2,
    (aiStep_fields _ _).2.2.2.2, (playerMoveStep_fields _ _).2.2.2.2]
  rfl

theorem multInv_init : MultInv simInit :=
  ⟨fun h => absurd rfl h, fun h => Bool.noConfusion h, le_refl 1⟩

theorem multInv_step (e : Env) (s : SimState) (h : MultInv s) : MultInv (step e s) := by
  obtain ⟨hb1, hb2, hb3⟩ := h
  unfold step
  split_ifs with hR
  case neg => exact ⟨hb1, hb2, hb3⟩
  case pos =>
    cases hb : s.anim.blinkingPaddle with
    | some side =>
      have hm := hb1 (by rw [hb]; exact fun h => Option.noConfusion h)
      have hupd : updateGame e s = blinkStep e side s := by
        unfold updateGame
        rw [hb]
      rw [hupd]
      unfold blinkStep
      split_ifs with ht <;> first
      | exact ⟨fun _ => rfl, fun _ => rfl, le_refl 1⟩
      | exact ⟨fun _ => hm, fun h' => hb2 h', le_of_eq hm.symm⟩
    | none =>
      have hupd : updateGame e s = scoringStep (preScore e s) := by
        unfold updateGame
        rw [hb]
      rw [hupd]
      have panim := preScore_anim e s
      have p3 := (preScore_fields e s).2.2
      have hone9 : 1 ≤ (preScore e s).game.currentSpeedMultiplier :=
        le_trans hb3 (preScore_mult e s hb3)
      unfold scoringStep
      split_ifs with h1 h2 h3 h4
      · exact ⟨fun _ => rfl, fun _ => rfl, le_refl 1⟩
      · exact ⟨fun _ => rfl, fun _ => rfl, le_refl 1⟩
      · exact ⟨fun _ => rfl, fun _ => rfl, le_refl 1⟩
      · exact ⟨fun _ => rfl, fun _ => rfl, le_refl 1⟩
      · refine ⟨fun hb' => ?_, fun hr' => ?_, hone9⟩
        · rw [panim, hb] at hb'
          exact absurd rfl hb'
        · rw [p3, hR] at hr'
          exact Bool.noConfusion hr'

theorem multInv_run (e : ℕ → Env) (n : ℕ) : MultInv (runTicks e n) := by
  induction n with
  | zero => exact multInv_init
  | succ n ih => exact multInv_step (e n) (runTicks e n) ih

/-- C5: along every tick sequence from the match start the speed multiplier
is monotonically non-decreasing on every tick that does not score, and on
such a tick it only ever changes by a multiplication by 1.1 per paddle
hit (zero, one or two hits in a tick); a tick that scores resets it to
exactly 1.0. -/
theorem c5_speed_multiplier (e : ℕ → Env) (n : ℕ) :
    (scoringEvent (e n) (runTicks e n) →
      (runTicks e (n+1)).game.currentSpeedMultiplier = 1) ∧
    (¬ scoringEvent (e n) (runTicks e n) →
      (runTicks e n).game.currentSpeedMultiplier ≤
        (runTicks e (n+1)).game.currentSpeedMultiplier ∧
      ((runTicks e (n+1)).game.currentSpeedMultiplier =
          (runTicks e n).game.currentSpeedMultiplier ∨
        (runTicks e (n+1)).game.currentSpeedMultiplier =
          (runTicks e n).game.currentSpeedMultiplier * (11/10) ∨
        (runTicks e (n+1)).game.currentSpeedMultiplier =
          (runTicks e n).game.currentSpeedMultiplier * (11/10) * (11/10))) := by
  obtain ⟨hb1, hb2, hb3⟩ := multInv_run e n
  have hstep : runTicks e (n+1) = step (e n) (runTicks e n) := rfl
  rw [hstep]
  unfold step
  split_ifs with hR
  case pos =>
    obtain ⟨h1, h2⟩ := updateGame_mult (e n) (runTicks e n) hb1 hb3
    exact ⟨h1, fun hnev =>
      ⟨h2 hnev, updateGame_mult_cases (e n) (runTicks e n) hb1 hnev⟩⟩
  case neg =>
    have hm := hb2 (Bool.not_eq_true _ ▸ Bool.of_not_eq_true hR)
    exact ⟨fun _ => hm, fun _ => ⟨le_refl _, Or.inl rfl⟩⟩

theorem healthInv_init : HealthInv simInit := by
  unfold HealthInv
  refine ⟨?_, ?_, ?_, ?_, ?_, ?_, fun _ => ⟨?_, ?_⟩⟩ <;> decide

theorem healthInv_of_eq (s t : SimState)
    (h1 : t.game.leftHealth = s.game.leftHealth)
    (h2 : t.game.rightHealth = s.game.rightHealth)
    (h3 : t.game.isRunning = s.game.isRunning)
    (h : HealthInv s) : HealthInv t := by
  unfold HealthInv at h ⊢
  rw [h1, h2, h3]
  exact h

theorem scoringStep_cases (s : SimState) :
    (s.game.ballX < 0 ∧ s.game.leftHealth - 10 ≤ 0 ∧
      (scoringStep s).game.leftHealth = s.game.leftHealth - 10 ∧
      (scoringStep s).game.rightHealth = s.game.rightHealth ∧
      (scoringStep s).game.isRunning = false) ∨
    (s.game.ballX < 0 ∧ ¬ (s.game.leftHealth - 10 ≤ 0) ∧
      (scoringStep s).game.leftHealth = s.game.leftHealth - 10 ∧
      (scoringStep s).game.rightHealth = s.game.rightHealth ∧
      (scoringStep s).game.isRunning = s.game.isRunning) ∨
    (s.game.ballX > CANVAS_WIDTH ∧ s.game.rightHealth - 10 ≤ 0 ∧
      (scoringStep s).game.leftHealth = s.game.leftHealth ∧
      (scoringStep s).game.rightHealth = s.game.rightHealth - 10 ∧
      (scoringStep s).game.isRunning = false) ∨
    (s.game.ballX > CANVAS_WIDTH ∧ ¬ (s.game.rightHealth - 10 ≤ 0) ∧
      (scoringStep s).game.leftHealth = s.game.leftHealth ∧
      (scoringStep s).game.rightHealth = s.game.rightHealth - 10 ∧
      (scoringStep s).game.isRunning = s.game.isRunning) ∨
    (¬ s.game.ballX < 0 ∧ ¬ s.game.ballX > CANVAS_WIDTH ∧ scoringStep s = s) := by
  unfold scoringStep
  split_ifs with h1 h2 h3 h4
  · exact Or.inl ⟨h1, h2, rfl, rfl, rfl⟩
  · exact Or.inr (Or.inl ⟨h1, h2, rfl, rfl, rfl⟩)
  · exact Or.inr (Or.inr (Or.inl ⟨h3, h4, rfl, rfl, rfl⟩))
  · exact Or.inr (Or.inr (Or.inr (Or.inl ⟨h3, h4, rfl, rfl, rfl⟩)))
  · exact Or.inr (Or.inr (Or.inr (Or.inr ⟨h1, h3, rfl⟩)))

theorem step_health (e : Env) (s : SimState) (h : HealthInv s) :
    HealthInv (step e s) ∧
    ((step e s).game.leftHealth = s.game.leftHealth ∨
      (step e s).game.leftHealth = s.game.leftHealth - 10) ∧
    ((step e s).game.rightHealth = s.game.rightHealth ∨
      (step e s).game.rightHealth = s.game.rightHealth - 10) := by
  obtain ⟨hl0, hl1, hl2, hr0, hr1, hr2, hrun⟩ := h
  unfold step
  split_ifs with hR
  case neg =>
    exact ⟨⟨hl0, hl1, hl2, hr0, hr1, hr2, hrun⟩, Or.inl rfl, Or.inl rfl⟩
  case pos =>
    obtain ⟨hpl, hpr⟩ := hrun hR
    cases hb : s.anim.blinkingPaddle with
    | some side =>
      have hupd : updateGame e s = blinkStep e side s := by
        unfold updateGame
        rw [hb]
      rw [hupd]
      obtain ⟨b1, b2, b3⟩ := blinkStep_health e side s
      exact ⟨healthInv_of_eq s _ b1 b2 b3 ⟨hl0, hl1, hl2, hr0, hr1, hr2, hrun⟩,
        Or.inl b1, Or.inl b2⟩
    | none =>
      have hupd : updateGame e s = scoringStep (preScore e s) := by
        unfold updateGame
        rw [hb]
      rw [hupd]
      obtain ⟨p1, p2, p3⟩ := preScore_fields e s
      rcases scoringStep_cases (preScore e s) with
        ⟨_, hle, q1, q2, q3⟩ | ⟨_, hgt, q1, q2, q3⟩ | ⟨_, hle, q1, q2, q3⟩ |
        ⟨_, hgt, q1, q2, q3⟩ | ⟨_, _, q⟩
      · refine ⟨?_, ?_, ?_⟩
        · unfold HealthInv
          rw [q1, q2, q3, p1, p2]
          exact ⟨by omega, by omega, by omega, hr0, hr1, hr2, fun hf => Bool.noConfusion hf⟩
        · rw [q1, p1]
          exact Or.inr rfl
        · rw [q2, p2]
          exact Or.inl rfl
      · rw [p1] at hgt
        refine ⟨?_, ?_, ?_⟩
        · unfold HealthInv
          rw [q1, q2, q3, p1, p2, p3]
          exact ⟨by omega, by omega, by omega, hr0, hr1, hr2, fun _ => ⟨by omega, hpr⟩⟩
        · rw [q1, p1]
          exact Or.inr rfl
        · rw [q2, p2]
          exact Or.inl rfl
      · refine ⟨?_, ?_, ?_⟩
        · unfold HealthInv
          rw [q1, q2, q3, p1, p2]
          exact ⟨hl0, hl1, hl2, by omega, by omega, by omega, fun hf => Bool.noConfusion hf⟩
        · rw [q1, p1]
          exact Or.inl rfl
        · rw [q2, p2]
          exact Or.inr rfl
      · rw [p2] at hgt
        refine ⟨?_, ?_, ?_⟩
        · unfold HealthInv
          rw [q1, q2, q3, p1, p2, p3]
          exact ⟨hl0, hl1, hl2, by omega, by omega, by omega, fun _ => ⟨hpl, by omega⟩⟩
        · rw [q1, p1]
          exact Or.inl rfl
        · rw [q2, p2]
          exact Or.inr rfl
      · rw [q]
        exact ⟨healthInv_of_eq s _ p1 p2 p3 ⟨hl0, hl1, hl2, hr0, hr1, hr2, hrun⟩,
          Or.inl p1, Or.inl p2⟩

/-- C4: along every tick sequence from the match start both health values
stay within [0, 100], and each tick leaves each health value unchanged or
decreases it by exactly 10. -/
theorem c4_health_bounds_and_steps (e : ℕ → Env) (n : ℕ) :
    (0 ≤ (runTicks e n).game.leftHealth ∧ (runTicks e n).game.leftHealth ≤ 100 ∧
      0 ≤ (runTicks e n).game.rightHealth ∧ (runTicks e n).game.rightHealth ≤ 100) ∧
    ((runTicks e (n+1)).game.leftHealth = (runTicks e n).game.leftHealth ∨
      (runTicks e (n+1)).game.leftHealth = (runTicks e n).game.leftHealth - 10) ∧
    ((runTicks e (n+1)).game.rightHealth = (runTicks e n).game.rightHealth ∨
      (runTicks e (n+1)).game.rightHealth = (runTicks e n).game.rightHealth - 10) := by
  have hInv : ∀ m, HealthInv (runTicks e m) := by
    intro m
    induction m with
    | zero => exact healthInv_init
    | succ m ih => exact (step_health (e m) (runTicks e m) ih).1
  obtain ⟨hl0, hl1, _, hr0, hr1, _, _⟩ := hInv n
  obtain ⟨_, hdl, hdr⟩ := step_health (e n) (runTicks e n) (hInv n)
  exact ⟨⟨hl0, hl1, hr0, hr1⟩, hdl, hdr⟩

theorem stepN_c8env_add (a b : ℕ) (s : SimState) :
    stepN c8env (a + b) s = stepN c8env b (stepN c8env a s) := by
  induction b with
  | zero => rfl
  | succ b ih =>
    show step (c8env (a + b)) (stepN c8env (a + b) s) =
      step (c8env b) (stepN c8env b (stepN c8env a s))
    rw [ih]
    rfl

theorem stepN_c3env_add (a b : ℕ) (s : SimState) :
    stepN c3env (a + b) s = stepN c3env b (stepN c3env a s) := by
  induction b with
  | zero => rfl
  | succ b ih =>
    show step (c3env (a + b)) (stepN c3env (a + b) s) =
      step (c3env b) (stepN c3env b (stepN c3env a s))
    rw [ih]
    rfl

theorem c8chunk25 : stepN c8env 25 simInit = c8s25 := by
  with_unfolding_all rfl

theorem c8chunk50 : stepN c8env 25 c8s25 = c8s50 := by
  with_unfolding_all rfl

theorem c8chunk75 : stepN c8env 25 c8s50 = c8s75 := by
  with_unfolding_all rfl

theorem c8chunk100 : stepN c8env 25 c8s75 = c8s100 := by
  with_unfolding_all rfl

theorem c8chunk125 : stepN c8env 25 c8s100 = c8s125 := by
  with_unfolding_all rfl

theorem c8chunk150 : stepN c8env 25 c8s125 = c8s150 := by
  with_unfolding_all rfl

theorem c8chunk175 : stepN c8env 25 c8s150 = c8s175 := by
  with_unfolding_all rfl

theorem c8chunk200 : stepN c8env 25 c8s175 = c8s200 := by
  with_unfolding_all rfl

theorem c8chunk219 : stepN c8env 19 c8s200 = c8s219 := by
  with_unfolding_all rfl

theorem c8chunk220 : stepN c8env 1 c8s219 = c8s220 := by
  with_unfolding_all rfl

theorem c3chunk1 : stepN c3env 1 c3start = c3s1 := by
  with_unfolding_all rfl

theorem c3chunk26 : stepN c3env 25 c3s1 = c3s26 := by
  with_unfolding_all rfl

theorem c3chunk51 : stepN c3env 25 c3s26 = c3s51 := by
  with_unfolding_all rfl

theorem c3chunk76 : stepN c3env 25 c3s51 = c3s76 := by
  with_unfolding_all rfl

theorem c3chunk101 : stepN c3env 25 c3s76 = c3s101 := by
  with_unfolding_all rfl

theorem c3chunk126 : stepN c3env 25 c3s101 = c3s126 := by
  with_unfolding_all rfl

theorem c8at219 : runTicks c8env 219 = c8s219 := by
  have h50 : stepN c8env 50 simInit = c8s50 := by
    have h := stepN_c8env_add 25 25 simInit
    rw [c8chunk25, c8chunk50] at h
    exact h
  have h75 : stepN c8env 75 simInit = c8s75 := by
    have h := stepN_c8env_add 50 25 simInit
    rw [h50, c8chunk75] at h
    exact h
  have h100 : stepN c8env 100 simInit = c8s100 := by
    have h := stepN_c8env_add 75 25 simInit
    rw [h75, c8chunk100] at h
    exact h
  have h125 : stepN c8env 125 simInit = c8s125 := by
    have h := stepN_c8env_add 100 25 simInit
    rw [h100, c8chunk125] at h
    exact h
  have h150 : stepN c8env 150 simInit = c8s150 := by
    have h := stepN_c8env_add 125 25 simInit
    rw [h125, c8chunk150] at h
    exact h
  have h175 : stepN c8env 175 simInit = c8s175 := by
    have h := stepN_c8env_add 150 25 simInit
    rw [h150, c8chunk175] at h
    exact h
  have h200 : stepN c8env 200 simInit = c8s200 := by
    have h := stepN_c8env_add 175 25 simInit
    rw [h175, c8chunk200] at h
    exact h
  have h := stepN_c8env_add 200 19 simInit
  rw [h200, c8chunk219] at h
  exact h

theorem c8at220 : runTicks c8env 220 = c8s220 := by
  have h := stepN_c8env_add 219 1 simInit
  rw [show stepN c8env 219 simInit = c8s219 from c8at219, c8chunk220] at h
  exact h

/-- C8, counterexample to the claim as stated: in the concrete match run
under `c8env` (player holds `w`, neutral randoms) the ball is missed at
the left edge on tick 219; the states after ticks 219 and 220 are both
reachable states of a running match whose ball position `x = -2` is
outside the canvas, and tick 220 changes neither health, so the ball is
out of bounds on (at least) two consecutive frames, not only during the
single frame in which scoring is detected. -/
theorem c8_counterexample :
    (runTicks c8env 219).game.ballX < 0 ∧
    (runTicks c8env 219).anim.blinkingPaddle = some Side.left ∧
    (runTicks c8env 219).game.isRunning = true ∧
    (runTicks c8env 220).game.ballX < 0 ∧
    (runTicks c8env 220).game.isRunning = true ∧
    (runTicks c8env 220).game.leftHealth = (runTicks c8env 219).game.leftHealth ∧
    (runTicks c8env 220).game.rightHealth = (runTicks c8env 219).game.rightHealth := by
  rw [c8at219, c8at220]
  have e1 : c8s219.game.ballX = -2 := rfl
  have e2 : c8s220.game.ballX = -2 := rfl
  refine ⟨by rw [e1]; norm_num, rfl, rfl, by rw [e2]; norm_num, rfl, rfl, rfl⟩

/-- C8, amended: a tick taken while the blink pause is still in progress
(timer below 2000 ms after its 16 ms increment) leaves the ball's
position unchanged, so after a miss the ball rests at its out-of-bounds
position for the whole pause rather than for a single frame; the ball is
re-centred only by the tick that ends the pause. -/
theorem c8_amended_blink_freezes_ball (e : Env) (side : Side) (s : SimState)
    (h : s.anim.blinkTimer + 16 < 2000) :
    (blinkStep e side s).game.ballX = s.game.ballX ∧
    (blinkStep e side s).game.ballY = s.game.ballY := by
  unfold blinkStep
  rw [if_neg (by omega)]
  exact ⟨rfl, rfl⟩

/-- Witness for the amended C8 at the blinking state reached one tick after
the miss of the `c8env` run. -/
theorem c8_amended_witness :
    (c8s220.anim.blinkTimer + 16 < 2000) ∧
    ((blinkStep env0 Side.left c8s220).game.ballX = c8s220.game.ballX ∧
      (blinkStep env0 Side.left c8s220).game.ballY = c8s220.game.ballY) :=
  ⟨by decide, c8_amended_blink_freezes_ball env0 Side.left c8s220 (by decide)⟩

/-- C3 exhibit: from the mid-rally state `c3start` the ball crosses the
right edge on the first tick — the CPU misses, its health drops to 90,
the right paddle blinks, and the ball's velocity is zeroed. When the
pause ends 125 ticks later the ball is re-centred, but its horizontal
velocity is `+BASE_BALL_SPEED` — positive, toward the CPU — although the
ball went out past the right edge: because the miss zeroed `ballVelX`,
the respawn reversal `ballVelX > 0 ? -5 : 5` always takes its else
branch. -/
theorem c3_respawn_direction_exhibit :
    (stepN c3env 1 c3start).anim.blinkingPaddle = some Side.right ∧
    (stepN c3env 1 c3start).game.rightHealth = 90 ∧
    (stepN c3env 1 c3start).game.ballVelX = 0 ∧
    (stepN c3env 126 c3start).anim.blinkingPaddle = none ∧
    (stepN c3env 126 c3start).game.ballVelX = BASE_BALL_SPEED ∧
    0 < (stepN c3env 126 c3start).game.ballVelX ∧
    (stepN c3env 126 c3start).game.ballX = CANVAS_WIDTH / 2 := by
  have h26 : stepN c3env 26 c3start = c3s26 := by
    have h := stepN_c3env_add 1 25 c3start
    rw [c3chunk1, c3chunk26] at h
    exact h
  have h51 : stepN c3env 51 c3start = c3s51 := by
    have h := stepN_c3env_add 26 25 c3start
    rw [h26, c3chunk51] at h
    exact h
  have h76 : stepN c3env 76 c3start = c3s76 := by
    have h := stepN_c3env_add 51 25 c3start
    rw [h51, c3chunk76] at h
    exact h
  have h101 : stepN c3env 101 c3start = c3s101 := by
    have h := stepN_c3env_add 76 25 c3start
    rw [h76, c3chunk101] at h
    exact h
  have h126 : stepN c3env 126 c3start = c3s126 := by
    have h := stepN_c3env_add 101 25 c3start
    rw [h101, c3chunk126] at h
    exact h
  rw [c3chunk1, h126]
  have e1 : c3s126.game.ballVelX = 5 := rfl
  have e2 : c3s126.game.ballX = 400 := rfl
  refine ⟨rfl, rfl, rfl, rfl, ?_, ?_, ?_⟩
  · rw [e1]
    norm_num [BASE_BALL_SPEED]
  · rw [e1]
    norm_num
  · rw [e2]
    norm_num [CANVAS_WIDTH]

end Pong
